/-
Verification of the cycle-scheduler core of the ProstheticHand firmware
(src/firmware/ProstheticHand/src/main.cpp together with main_e.h).

The embedding below translates the scheduler's global state and its
functions into pure Lean definitions.  Machine integers are modelled as
Nat with explicit reductions modulo 2^16 / 2^32 / 2^64 at exactly the
points where the C code's fixed-width types truncate.  The external
microsecond clock (Arduino micros) is supplied as an explicit input to
each step: one call of main_f_Handle_v reads the clock up to three
times (line 148 of main.cpp, inside main_f_StartRTM_v at line 216, and
inside main_f_StopRTM_v at line 222), so a tick input carries those
three readings.

The repository's main_i.h is not part of the sources; its two names used
by main.cpp are fixed by main_e.h: MAIN_CYCLE_TASK_COUNT must equal
main_c_CycleTaskCount_u8 (= 10) for the extern declaration of
main_g_RuntimeMeas_s to match its definition, and the slot length
main_g_CycleTaskLengthUs_u16 is main_c_CycleTaskLengthUs_u16
(= 1000 * 10 / 10 = 1000).  The theorems are stated generically in the
task count and slot length and instantiated at these values.
-/
import Mathlib

namespace ProstheticHand

/-- 2^16, the modulus of a C uint16_t. -/
def U16 : Nat := 2 ^ 16

/-- 2^32, the modulus of a C uint32_t. -/
def U32 : Nat := 2 ^ 32

/-- 2^64, the modulus of a C uint64_t. -/
def U64 : Nat := 2 ^ 64

/-- main_e.h line 41: `const uint8_t main_c_CycleLengthMS_u8 = 10`. -/
def main_c_CycleLengthMS_u8 : Nat := 10

/-- main_e.h line 49: `const uint8_t main_c_CycleTaskCount_u8 = 10`. -/
def main_c_CycleTaskCount_u8 : Nat := 10

/-- main_e.h line 56: `1000 * main_c_CycleLengthMS_u8 / main_c_CycleTaskCount_u8`. -/
def main_c_CycleTaskLengthUs_u16 : Nat :=
  1000 * main_c_CycleLengthMS_u8 / main_c_CycleTaskCount_u8

/-- main_e.h lines 62-66: the per-slot runtime-measurement record.
All three fields are uint32_t, kept here as Nat values below U32. -/
structure main_g_RuntimeMeasTyp_t where
  currentCycle_u32 : Nat
  minCycle_u32 : Nat
  maxCycle_u32 : Nat
deriving DecidableEq

/-- The all-zero record written by main_f_Init_v (main.cpp lines 121-125). -/
def zeroMeas : main_g_RuntimeMeasTyp_t :=
  { currentCycle_u32 := 0, minCycle_u32 := 0, maxCycle_u32 := 0 }

/-- main.cpp lines 227-240, main_f_HandleRTMStats_v, as a transformer of the
record main_g_RuntimeMeas_s[index]: three sequential if-statements updating
maxCycle_u32, then minCycle_u32, then the min-sentinel replacement. -/
def main_f_HandleRTMStats_v (r : main_g_RuntimeMeasTyp_t) : main_g_RuntimeMeasTyp_t :=
  let r1 := if r.currentCycle_u32 > r.maxCycle_u32 then
    { r with maxCycle_u32 := r.currentCycle_u32 } else r
  let r2 := if r1.currentCycle_u32 < r1.minCycle_u32 then
    { r1 with minCycle_u32 := r1.currentCycle_u32 } else r1
  if r2.minCycle_u32 = 0 then
    { r2 with minCycle_u32 := r2.currentCycle_u32 } else r2

/-- main.cpp lines 196 and 199 combined: store a duration into
currentCycle_u32 (a uint32_t assignment, hence mod U32) and then run
main_f_HandleRTMStats_v on the same record. -/
def recordCycle (r : main_g_RuntimeMeasTyp_t) (d : Nat) : main_g_RuntimeMeasTyp_t :=
  main_f_HandleRTMStats_v { r with currentCycle_u32 := d % U32 }

/-- main.cpp lines 215-217, main_f_StartRTM_v: `return micros()` with a
uint32_t return type; the clock reading is the explicit argument. -/
def main_f_StartRTM_v (clockUs : Nat) : Nat := clockUs % U32

/-- main.cpp lines 221-223, main_f_StopRTM_v: `return micros() - rtmStart`
in uint32_t arithmetic, i.e. wraparound subtraction mod 2^32; the clock
reading at the stop point is the explicit first argument. -/
def main_f_StopRTM_v (clockUs rtmStart : Nat) : Nat :=
  (clockUs % U32 + U32 - rtmStart % U32) % U32

/-- The scheduler's global state: main.cpp lines 37-52.  The C array
main_g_RuntimeMeas_s[MAIN_CYCLE_TASK_COUNT] is a list whose length is
the task count in every reachable state. -/
structure MainState where
  main_g_CurrMicros_u64 : Nat
  main_g_LastMicros_u64 : Nat
  main_g_CurrTaskIndex_u16 : Nat
  main_g_RuntimeMeas_s : List main_g_RuntimeMeasTyp_t
deriving DecidableEq

/-- The external clock readings consumed by one call of main_f_Handle_v:
line 148 (`micros()` stored into main_g_CurrMicros_u64), the reading
inside main_f_StartRTM_v, and the reading inside main_f_StopRTM_v. -/
structure TickInput where
  nowUs : Nat
  rtmStartClockUs : Nat
  rtmStopClockUs : Nat
deriving DecidableEq

/-- The state at C program start: all four globals zero-initialized
(main.cpp lines 37, 38, 45, 52; statics are zero-initialized in C++),
with the measurement array of its declared size. -/
def bootState (taskCount : Nat) : MainState :=
  { main_g_CurrMicros_u64 := 0
    main_g_LastMicros_u64 := 0
    main_g_CurrTaskIndex_u16 := 0
    main_g_RuntimeMeas_s := List.replicate taskCount zeroMeas }

/-- main.cpp lines 112-136, main_f_Init_v: the loop at lines 121-125 zeroes
every field of main_g_RuntimeMeas_s[0..taskCount).  The driver init calls
touch no scheduler state.  The Option result records where a fatal
startup failure would be signalled (`none` = halt startup): the source
function has no failure path at all, so the result is always `some`. -/
def main_f_Init_v (taskCount : Nat) (s : MainState) : Option MainState :=
  some { s with main_g_RuntimeMeas_s :=
    (List.range taskCount).foldl (fun ms i => ms.set i zeroMeas) s.main_g_RuntimeMeas_s }

/-- The state after boot followed by setup() = main_f_Init_v (main.cpp line 90). -/
def initializedState (taskCount : Nat) : MainState :=
  (main_f_Init_v taskCount (bootState taskCount)).getD (bootState taskCount)

/-- main.cpp lines 202-205: `main_g_CurrTaskIndex_u16++` (a uint16_t
increment, hence mod U16) followed by the wrap check against the task
count. -/
def nextTaskIndex (taskCount i : Nat) : Nat :=
  let j := (i + 1) % U16
  if taskCount ≤ j then 0 else j

/-- main.cpp lines 144-207, main_f_Handle_v, one polling tick.
Line 148 stores the clock into main_g_CurrMicros_u64 (uint64_t).
Line 151 compares `main_g_CurrMicros_u64 - main_g_LastMicros_u64`
(uint64_t wraparound subtraction) against the uint16_t slot length.
On fire: line 153 sets main_g_LastMicros_u64, lines 156-199 run the RTM
measurement around the dispatch switch (the driver handlers at lines
159-193 touch no scheduler state; the fired slot index is returned as
the second component), lines 202-205 advance the index.  Otherwise only
main_g_CurrMicros_u64 changed. -/
def main_f_Handle_v (slotLengthUs taskCount : Nat) (inp : TickInput) (s : MainState) :
    MainState × Option Nat :=
  let nowUs := inp.nowUs % U64
  if slotLengthUs ≤ (nowUs + U64 - s.main_g_LastMicros_u64) % U64 then
    let i := s.main_g_CurrTaskIndex_u16
    let rtmStart := main_f_StartRTM_v inp.rtmStartClockUs
    let dur := main_f_StopRTM_v inp.rtmStopClockUs rtmStart
    ({ s with
        main_g_CurrMicros_u64 := nowUs
        main_g_LastMicros_u64 := nowUs
        main_g_CurrTaskIndex_u16 := nextTaskIndex taskCount i
        main_g_RuntimeMeas_s :=
          s.main_g_RuntimeMeas_s.set i
            (recordCycle (s.main_g_RuntimeMeas_s.getD i zeroMeas) dur) },
      some i)
  else
    ({ s with main_g_CurrMicros_u64 := nowUs }, none)

/-- Iterate main_f_Handle_v over a list of clock inputs (the host's
busy-poll loop, main.cpp lines 97-99), collecting the fired slot
indices in order. -/
def runTicks (slotLengthUs taskCount : Nat) (s : MainState) :
    List TickInput → MainState × List Nat
  | [] => (s, [])
  | inp :: rest =>
    let step := main_f_Handle_v slotLengthUs taskCount inp s
    let res := runTicks slotLengthUs taskCount step.1 rest
    (res.1, step.2.toList ++ res.2)

/-- The clock discipline of spec §8 P1: successive readings each at least
`slotLengthUs` after the previous one (the first one measured from the
scheduler's current main_g_LastMicros_u64) and all below 2^64. -/
def spacedFrom (slotLengthUs last : Nat) : List Nat → Bool
  | [] => true
  | t :: ts =>
    decide (last + slotLengthUs ≤ t) && decide (t < U64) && spacedFrom slotLengthUs t ts

/-! ### Helper lemmas about the measurement record -/

theorem recordCycle_current (r : main_g_RuntimeMeasTyp_t) (d : Nat) :
    (recordCycle r d).currentCycle_u32 = d % U32 := by
  unfold recordCycle main_f_HandleRTMStats_v
  dsimp only
  split_ifs <;> rfl

theorem recordCycle_max (r : main_g_RuntimeMeasTyp_t) (d : Nat) :
    (recordCycle r d).maxCycle_u32 = max r.maxCycle_u32 (d % U32) := by
  unfold recordCycle main_f_HandleRTMStats_v
  dsimp only
  split_ifs <;> simp_all
  all_goals omega

theorem recordCycle_min_le (r : main_g_RuntimeMeasTyp_t) (d : Nat) :
    (recordCycle r d).minCycle_u32 ≤ d % U32 := by
  unfold recordCycle main_f_HandleRTMStats_v
  dsimp only
  split_ifs <;> simp_all

theorem foldl_recordCycle_max (ds : List Nat) :
    ∀ r : main_g_RuntimeMeasTyp_t,
      (ds.foldl recordCycle r).maxCycle_u32
        = ds.foldl (fun m d => max m (d % U32)) r.maxCycle_u32 := by
  induction ds with
  | nil => intro r; rfl
  | cons d ds ih =>
    intro r
    simp only [List.foldl_cons]
    rw [ih (recordCycle r d), recordCycle_max]

theorem foldl_recordCycle_ord (ds : List Nat) :
    ∀ r : main_g_RuntimeMeasTyp_t,
      r.minCycle_u32 ≤ r.currentCycle_u32 → r.currentCycle_u32 ≤ r.maxCycle_u32 →
      (ds.foldl recordCycle r).minCycle_u32 ≤ (ds.foldl recordCycle r).currentCycle_u32
      ∧ (ds.foldl recordCycle r).currentCycle_u32 ≤ (ds.foldl recordCycle r).maxCycle_u32 := by
  induction ds with
  | nil => intro r h1 h2; exact ⟨h1, h2⟩
  | cons d ds ih =>
    intro r h1 h2
    simp only [List.foldl_cons]
    apply ih
    · rw [recordCycle_current]; exact recordCycle_min_le r d
    · rw [recordCycle_current, recordCycle_max]; exact le_max_right _ _

theorem foldl_max_mod (ds : List Nat) (hds : ∀ d ∈ ds, d < U32) :
    ∀ a : Nat, ds.foldl (fun m d => max m (d % U32)) a = ds.foldl (fun m d => max m d) a := by
  induction ds with
  | nil => intro a; rfl
  | cons d ds ih =>
    intro a
    simp only [List.foldl_cons]
    rw [Nat.mod_eq_of_lt (hds d (by simp))]
    exact ih (fun x hx => hds x (by simp [hx])) _

/-- Claim C3: starting from the all-zero record, after every sequence of
record operations (store a u32 duration into currentCycle_u32, then run
main_f_HandleRTMStats_v) the invariant
minCycle_u32 ≤ currentCycle_u32 ≤ maxCycle_u32 holds, maxCycle_u32 is
the maximum of all durations recorded so far, and before the first
operation all three fields are 0. -/
theorem runtimeMeas_stats_inv (ds : List Nat) (hds : ∀ d ∈ ds, d < U32) :
    (ds.foldl recordCycle zeroMeas).minCycle_u32
      ≤ (ds.foldl recordCycle zeroMeas).currentCycle_u32
    ∧ (ds.foldl recordCycle zeroMeas).currentCycle_u32
      ≤ (ds.foldl recordCycle zeroMeas).maxCycle_u32
    ∧ (ds.foldl recordCycle zeroMeas).maxCycle_u32 = ds.foldl (fun m d => max m d) 0
    ∧ zeroMeas.minCycle_u32 = 0 ∧ zeroMeas.maxCycle_u32 = 0
    ∧ zeroMeas.currentCycle_u32 = 0 := by
  refine ⟨?_, ?_, ?_, rfl, rfl, rfl⟩
  · exact (foldl_recordCycle_ord ds zeroMeas (le_refl 0) (le_refl 0)).1
  · exact (foldl_recordCycle_ord ds zeroMeas (le_refl 0) (le_refl 0)).2
  · rw [foldl_recordCycle_max]
    exact foldl_max_mod ds hds 0

/-- Witness for C3 at the spec's Scenario C durations [50, 20, 80]. -/
theorem runtimeMeas_stats_inv_witness :
    (∀ d ∈ ([50, 20, 80] : List Nat), d < U32)
    ∧ ((([50, 20, 80] : List Nat).foldl recordCycle zeroMeas).minCycle_u32
        ≤ (([50, 20, 80] : List Nat).foldl recordCycle zeroMeas).currentCycle_u32
      ∧ (([50, 20, 80] : List Nat).foldl recordCycle zeroMeas).currentCycle_u32
        ≤ (([50, 20, 80] : List Nat).foldl recordCycle zeroMeas).maxCycle_u32
      ∧ (([50, 20, 80] : List Nat).foldl recordCycle zeroMeas).maxCycle_u32
        = ([50, 20, 80] : List Nat).foldl (fun m d => max m d) 0
      ∧ zeroMeas.minCycle_u32 = 0 ∧ zeroMeas.maxCycle_u32 = 0
      ∧ zeroMeas.currentCycle_u32 = 0) :=
  ⟨by decide, runtimeMeas_stats_inv [50, 20, 80] (by decide)⟩

/-- Claim C4: a record operation on a record whose minCycle_u32 is still
the sentinel 0 sets minCycle_u32 to the stored duration, for every
duration, including 0 (main.cpp lines 236-239). -/
theorem min_sentinel_replaced (r : main_g_RuntimeMeasTyp_t) (d : Nat)
    (hmin : r.minCycle_u32 = 0) :
    (recordCycle r d).minCycle_u32 = d % U32 := by
  unfold recordCycle main_f_HandleRTMStats_v
  dsimp only
  split_ifs <;> simp_all

/-- Witness for C4 at the all-zero record and the duration d = 0. -/
theorem min_sentinel_replaced_witness :
    zeroMeas.minCycle_u32 = 0 ∧ (recordCycle zeroMeas 0).minCycle_u32 = 0 % U32 :=
  ⟨rfl, min_sentinel_replaced zeroMeas 0 rfl⟩

/-- Claim C10: main_f_StopRTM_v computes the duration by unsigned 32-bit
wraparound subtraction: for a start reading startUs and a true elapsed
time d, the returned (and hence stored) duration is d mod 2^32, so an
execution of 2^32 microseconds or more is recorded modulo 2^32. -/
theorem stopRTM_mod32 (startUs d : Nat) :
    main_f_StopRTM_v (startUs + d) startUs = d % U32 := by
  have h : U32 = 4294967296 := by norm_num [U32]
  simp only [main_f_StopRTM_v, h]
  omega

/-! ### Helper lemmas about the tick step -/

theorem U16_eq : U16 = 65536 := by norm_num [U16]

theorem U64_eq : U64 = 18446744073709551616 := by norm_num [U64]

theorem nextTaskIndex_lt (taskCount i : Nat) (hN : 1 ≤ taskCount) :
    nextTaskIndex taskCount i < taskCount := by
  unfold nextTaskIndex
  dsimp only
  split_ifs with h
  · omega
  · omega

theorem nextTaskIndex_eq_mod (taskCount i : Nat) (hi : i < taskCount)
    (hN16 : taskCount ≤ U16) : nextTaskIndex taskCount i = (i + 1) % taskCount := by
  unfold nextTaskIndex
  dsimp only
  by_cases h1 : i + 1 < U16
  · rw [Nat.mod_eq_of_lt h1]
    split_ifs with h2
    · have he : i + 1 = taskCount := le_antisymm hi h2
      rw [he, Nat.mod_self]
    · rw [Nat.mod_eq_of_lt (by omega)]
  · have he : i + 1 = U16 := by omega
    have hN : taskCount = U16 := by omega
    rw [he, Nat.mod_self, hN, Nat.mod_self]
    have : ¬ U16 ≤ 0 := by rw [U16_eq]; omega
    simp [this]

/-- When the clock has not wrapped (last ≤ now < 2^64), the uint64_t
elapsed-time expression of main.cpp line 151 is the plain difference. -/
theorem elapsed_no_wrap (nowUs last : Nat) (hnow : nowUs < U64) (hle : last ≤ nowUs) :
    (nowUs % U64 + U64 - last) % U64 = nowUs - last := by
  rw [Nat.mod_eq_of_lt hnow]
  have h : nowUs + U64 - last = U64 + (nowUs - last) := by omega
  rw [h, Nat.add_mod_left, Nat.mod_eq_of_lt (by omega)]

/-- A firing tick, written out: the state and fired index produced by
main_f_Handle_v when at least slotLengthUs has elapsed since the last
fire (no clock wraparound in this form). -/
theorem handle_fires (slotLengthUs taskCount : Nat) (inp : TickInput) (s : MainState)
    (hnow : inp.nowUs < U64)
    (hge : s.main_g_LastMicros_u64 + slotLengthUs ≤ inp.nowUs) :
    main_f_Handle_v slotLengthUs taskCount inp s =
      ({ s with
          main_g_CurrMicros_u64 := inp.nowUs
          main_g_LastMicros_u64 := inp.nowUs
          main_g_CurrTaskIndex_u16 := nextTaskIndex taskCount s.main_g_CurrTaskIndex_u16
          main_g_RuntimeMeas_s :=
            s.main_g_RuntimeMeas_s.set s.main_g_CurrTaskIndex_u16
              (recordCycle (s.main_g_RuntimeMeas_s.getD s.main_g_CurrTaskIndex_u16 zeroMeas)
                (main_f_StopRTM_v inp.rtmStopClockUs
                  (main_f_StartRTM_v inp.rtmStartClockUs))) },
        some s.main_g_CurrTaskIndex_u16) := by
  unfold main_f_Handle_v
  dsimp only
  rw [elapsed_no_wrap inp.nowUs s.main_g_LastMicros_u64 hnow (by omega)]
  rw [if_pos (by omega), Nat.mod_eq_of_lt hnow]

/-- Claim C2: a tick in which the clock has advanced by less than
slotLengthUs since the last fire dispatches no task and leaves
main_g_CurrTaskIndex_u16, main_g_LastMicros_u64 and every record of
main_g_RuntimeMeas_s unchanged (only main_g_CurrMicros_u64 is
refreshed, main.cpp line 148). -/
theorem tick_below_slot_is_noop (slotLengthUs taskCount : Nat) (inp : TickInput)
    (s : MainState) (hnow : inp.nowUs < U64)
    (hle : s.main_g_LastMicros_u64 ≤ inp.nowUs)
    (hlt : inp.nowUs < s.main_g_LastMicros_u64 + slotLengthUs) :
    (main_f_Handle_v slotLengthUs taskCount inp s).2 = none
    ∧ (main_f_Handle_v slotLengthUs taskCount inp s).1.main_g_CurrTaskIndex_u16
        = s.main_g_CurrTaskIndex_u16
    ∧ (main_f_Handle_v slotLengthUs taskCount inp s).1.main_g_LastMicros_u64
        = s.main_g_LastMicros_u64
    ∧ (main_f_Handle_v slotLengthUs taskCount inp s).1.main_g_RuntimeMeas_s
        = s.main_g_RuntimeMeas_s := by
  unfold main_f_Handle_v
  dsimp only
  rw [elapsed_no_wrap inp.nowUs s.main_g_LastMicros_u64 hnow hle]
  rw [if_neg (by omega)]
  exact ⟨rfl, rfl, rfl, rfl⟩

/-- Witness for C2: from the initialized state, a tick at 500 us with a
1000 us slot does nothing. -/
theorem tick_below_slot_is_noop_witness :
    (500 < U64 ∧ (bootState 10).main_g_LastMicros_u64 ≤ 500
      ∧ 500 < (bootState 10).main_g_LastMicros_u64 + 1000)
    ∧ ((main_f_Handle_v 1000 10 ⟨500, 500, 600⟩ (bootState 10)).2 = none
      ∧ (main_f_Handle_v 1000 10 ⟨500, 500, 600⟩ (bootState 10)).1.main_g_CurrTaskIndex_u16
          = (bootState 10).main_g_CurrTaskIndex_u16
      ∧ (main_f_Handle_v 1000 10 ⟨500, 500, 600⟩ (bootState 10)).1.main_g_LastMicros_u64
          = (bootState 10).main_g_LastMicros_u64
      ∧ (main_f_Handle_v 1000 10 ⟨500, 500, 600⟩ (bootState 10)).1.main_g_RuntimeMeas_s
          = (bootState 10).main_g_RuntimeMeas_s) :=
  ⟨⟨by decide, by decide, by decide⟩,
    tick_below_slot_is_noop 1000 10 ⟨500, 500, 600⟩ (bootState 10)
      (by decide) (by decide) (by decide)⟩

/-- Claim C5: when at least slotLengthUs has elapsed, one tick dispatches
exactly the slot at main_g_CurrTaskIndex_u16 (one dispatch, no
catch-up), sets main_g_LastMicros_u64 to the current clock reading
nowUs itself (not to the old value plus slotLengthUs), and advances the
index by exactly one position modulo taskCount. -/
theorem tick_fires_once (slotLengthUs taskCount : Nat) (inp : TickInput) (s : MainState)
    (hN16 : taskCount ≤ U16)
    (hidx : s.main_g_CurrTaskIndex_u16 < taskCount)
    (hnow : inp.nowUs < U64)
    (hge : s.main_g_LastMicros_u64 + slotLengthUs ≤ inp.nowUs) :
    (main_f_Handle_v slotLengthUs taskCount inp s).2 = some s.main_g_CurrTaskIndex_u16
    ∧ (main_f_Handle_v slotLengthUs taskCount inp s).1.main_g_LastMicros_u64 = inp.nowUs
    ∧ (main_f_Handle_v slotLengthUs taskCount inp s).1.main_g_CurrTaskIndex_u16
        = (s.main_g_CurrTaskIndex_u16 + 1) % taskCount := by
  rw [handle_fires slotLengthUs taskCount inp s hnow hge]
  exact ⟨rfl, rfl, nextTaskIndex_eq_mod taskCount s.main_g_CurrTaskIndex_u16 hidx hN16⟩

/-- Witness for C5: from the initialized state a tick at 5000 us (five
slot lengths late) fires slot 0 exactly once, sets the fire timestamp
to 5000 (not 1000), and advances the index to 1. -/
theorem tick_fires_once_witness :
    (10 ≤ U16 ∧ (bootState 10).main_g_CurrTaskIndex_u16 < 10 ∧ 5000 < U64
      ∧ (bootState 10).main_g_LastMicros_u64 + 1000 ≤ 5000)
    ∧ ((main_f_Handle_v 1000 10 ⟨5000, 5000, 5040⟩ (bootState 10)).2
          = some (bootState 10).main_g_CurrTaskIndex_u16
      ∧ (main_f_Handle_v 1000 10 ⟨5000, 5000, 5040⟩ (bootState 10)).1.main_g_LastMicros_u64
          = 5000
      ∧ (main_f_Handle_v 1000 10 ⟨5000, 5000, 5040⟩ (bootState 10)).1.main_g_CurrTaskIndex_u16
          = ((bootState 10).main_g_CurrTaskIndex_u16 + 1) % 10) :=
  ⟨⟨by decide, by decide, by decide, by decide⟩,
    tick_fires_once 1000 10 ⟨5000, 5000, 5040⟩ (bootState 10)
      (by decide) (by decide) (by decide) (by decide)⟩

/-- Claim C6: when the uint64_t clock has wrapped (nowUs < last fire
timestamp), the elapsed time of main.cpp line 151 is the wraparound
distance nowUs + (2^64 - lastFire), and the tick fires exactly when
that distance reaches slotLengthUs. -/
theorem tick_wraparound_fires (slotLengthUs taskCount : Nat) (inp : TickInput)
    (s : MainState) (hwrap : inp.nowUs < s.main_g_LastMicros_u64)
    (hlast : s.main_g_LastMicros_u64 < U64) :
    ((main_f_Handle_v slotLengthUs taskCount inp s).2.isSome = true
      ↔ slotLengthUs ≤ inp.nowUs + (U64 - s.main_g_LastMicros_u64)) := by
  have hnow : inp.nowUs < U64 := lt_trans hwrap hlast
  have helapsed : (inp.nowUs % U64 + U64 - s.main_g_LastMicros_u64) % U64
      = inp.nowUs + (U64 - s.main_g_LastMicros_u64) := by
    rw [Nat.mod_eq_of_lt hnow, Nat.mod_eq_of_lt (by omega)]
    omega
  unfold main_f_Handle_v
  dsimp only
  rw [helapsed]
  split_ifs with h
  · simp [h]
  · simp [h]

/-- Witness for C6: with the last fire 100 us before the uint64_t wrap
and the clock now at 950 us past zero, the wraparound-adjusted elapsed
time is 1050 us, so a 1000 us slot fires. -/
theorem tick_wraparound_fires_witness :
    (950 < U64 - 100 ∧ U64 - 100 < U64)
    ∧ ((main_f_Handle_v 1000 10
          ⟨950, 950, 990⟩
          { bootState 10 with main_g_LastMicros_u64 := U64 - 100 }).2.isSome = true
        ↔ 1000 ≤ 950 + (U64 - (U64 - 100))) :=
  ⟨⟨by decide, by decide⟩,
    tick_wraparound_fires 1000 10 ⟨950, 950, 990⟩
      { bootState 10 with main_g_LastMicros_u64 := U64 - 100 }
      (by decide) (by decide)⟩

/-! ### Initialization and reachable-state invariants -/

theorem set_replicate_self {α : Type} (a : α) :
    ∀ (n i : Nat), (List.replicate n a).set i a = List.replicate n a := by
  intro n
  induction n with
  | zero => intro i; rfl
  | succ n ih =>
    intro i
    cases i with
    | zero => simp [List.replicate_succ]
    | succ i => simp [List.replicate_succ, ih]

theorem foldl_set_replicate {α : Type} (a : α) (l : List Nat) (n : Nat) :
    l.foldl (fun ms i => ms.set i a) (List.replicate n a) = List.replicate n a := by
  induction l with
  | nil => rfl
  | cons x l ih => simp only [List.foldl_cons, set_replicate_self, ih]

theorem initializedState_eq (taskCount : Nat) :
    initializedState taskCount = bootState taskCount := by
  simp only [initializedState, main_f_Init_v, Option.getD_some, bootState,
    foldl_set_replicate]

theorem handle_idx_lt (slotLengthUs taskCount : Nat) (inp : TickInput) (s : MainState)
    (h1 : s.main_g_CurrTaskIndex_u16 < taskCount) :
    (main_f_Handle_v slotLengthUs taskCount inp s).1.main_g_CurrTaskIndex_u16
      < taskCount := by
  unfold main_f_Handle_v
  dsimp only
  split_ifs with h
  · exact nextTaskIndex_lt taskCount _ (by omega)
  · exact h1

theorem handle_meas_length (slotLengthUs taskCount : Nat) (inp : TickInput)
    (s : MainState) :
    (main_f_Handle_v slotLengthUs taskCount inp s).1.main_g_RuntimeMeas_s.length
      = s.main_g_RuntimeMeas_s.length := by
  unfold main_f_Handle_v
  dsimp only
  split_ifs with h
  · simp
  · rfl

theorem runTicks_state_inv (slotLengthUs taskCount : Nat) :
    ∀ (inps : List TickInput) (s : MainState),
      s.main_g_CurrTaskIndex_u16 < taskCount →
      s.main_g_RuntimeMeas_s.length = taskCount →
      (runTicks slotLengthUs taskCount s inps).1.main_g_CurrTaskIndex_u16 < taskCount
      ∧ (runTicks slotLengthUs taskCount s inps).1.main_g_RuntimeMeas_s.length
          = taskCount := by
  intro inps
  induction inps with
  | nil => intro s h1 h2; exact ⟨h1, h2⟩
  | cons inp rest ih =>
    intro s h1 h2
    simp only [runTicks]
    exact ih _ (handle_idx_lt slotLengthUs taskCount inp s h1)
      ((handle_meas_length slotLengthUs taskCount inp s).trans h2)

/-- Claim C9: in every state reachable from the initialized state by any
sequence of ticks, main_g_CurrTaskIndex_u16 lies in [0, taskCount), and
the measurement array keeps length taskCount, so the array access at
the current index stays in bounds and the switch's default branch
(indices ≥ taskCount, main.cpp lines 190-192) is never selected. -/
theorem currTaskIndex_in_range (slotLengthUs taskCount : Nat) (hN : 1 ≤ taskCount)
    (inps : List TickInput) :
    (runTicks slotLengthUs taskCount (initializedState taskCount)
        inps).1.main_g_CurrTaskIndex_u16 < taskCount
    ∧ (runTicks slotLengthUs taskCount (initializedState taskCount)
        inps).1.main_g_RuntimeMeas_s.length = taskCount := by
  rw [initializedState_eq]
  exact runTicks_state_inv slotLengthUs taskCount inps (bootState taskCount)
    (by simpa [bootState] using hN) (by simp [bootState])

/-- Witness for C9: two ticks from the initialized 10-slot state keep
the index in range. -/
theorem currTaskIndex_in_range_witness :
    1 ≤ 10
    ∧ ((runTicks 1000 10 (initializedState 10)
          [⟨1000, 1000, 1020⟩, ⟨2500, 2500, 2510⟩]).1.main_g_CurrTaskIndex_u16 < 10
      ∧ (runTicks 1000 10 (initializedState 10)
          [⟨1000, 1000, 1020⟩, ⟨2500, 2500, 2510⟩]).1.main_g_RuntimeMeas_s.length = 10) :=
  ⟨by decide,
    currTaskIndex_in_range 1000 10 (by decide) [⟨1000, 1000, 1020⟩, ⟨2500, 2500, 2510⟩]⟩

/-! ### Round-robin dispatch order -/

theorem runTicks_trace (slotLengthUs taskCount : Nat) (hN16 : taskCount ≤ U16) :
    ∀ (inps : List TickInput) (s : MainState),
      s.main_g_CurrTaskIndex_u16 < taskCount →
      spacedFrom slotLengthUs s.main_g_LastMicros_u64 (inps.map TickInput.nowUs) = true →
      (runTicks slotLengthUs taskCount s inps).2
        = (List.range inps.length).map
            fun j => (s.main_g_CurrTaskIndex_u16 + j) % taskCount := by
  intro inps
  induction inps with
  | nil => intro s hidx hsp; simp [runTicks]
  | cons inp rest ih =>
    intro s hidx hsp
    simp only [List.map_cons, spacedFrom, Bool.and_eq_true, decide_eq_true_eq] at hsp
    obtain ⟨⟨hge, hnow⟩, hsp'⟩ := hsp
    simp only [runTicks]
    rw [handle_fires slotLengthUs taskCount inp s hnow hge]
    dsimp only [Option.toList]
    rw [ih _ (nextTaskIndex_lt taskCount _ (by omega)) hsp']
    dsimp only
    rw [List.length_cons, List.range_succ_eq_map, List.map_cons, List.map_map,
      List.singleton_append]
    congr 1
    · rw [Nat.add_zero, Nat.mod_eq_of_lt hidx]
    · have hfun : (fun j =>
          (nextTaskIndex taskCount s.main_g_CurrTaskIndex_u16 + j) % taskCount)
          = ((fun j => (s.main_g_CurrTaskIndex_u16 + j) % taskCount) ∘ Nat.succ) := by
        funext j
        simp only [Function.comp]
        rw [nextTaskIndex_eq_mod taskCount _ hidx hN16, Nat.mod_add_mod]
        congr 1
        omega
      rw [hfun]

/-- Claim C1: from the initialized state, for every sequence of ticks
whose clock readings increase by at least slotLengthUs between
successive readings (the first measured from the initial fire timestamp
0), the dispatched slot indices are exactly 0, 1, ..., taskCount-1, 0,
1, ... with no skips and no repeats, for every taskCount ≥ 1 (the bound
taskCount ≤ 2^16 covers the whole range of the uint16_t slot index and
in particular every value of the uint8_t configuration constant). -/
theorem round_robin_order (slotLengthUs taskCount : Nat) (hN : 1 ≤ taskCount)
    (hN16 : taskCount ≤ U16) (inps : List TickInput)
    (hsp : spacedFrom slotLengthUs 0 (inps.map TickInput.nowUs) = true) :
    (runTicks slotLengthUs taskCount (initializedState taskCount) inps).2
      = (List.range inps.length).map fun j => j % taskCount := by
  rw [initializedState_eq]
  have h := runTicks_trace slotLengthUs taskCount hN16 inps (bootState taskCount)
    (by simpa [bootState] using hN) (by simpa [bootState] using hsp)
  simpa [bootState] using h

/-- Witness for C1: the spec's Scenario A prefix: with a 1000 us slot
and 10 slots, ticks at 1000, 2000, 3000 us dispatch slots 0, 1, 2. -/
theorem round_robin_order_witness :
    (1 ≤ 10 ∧ 10 ≤ U16
      ∧ spacedFrom 1000 0
          (([⟨1000, 1000, 1020⟩, ⟨2000, 2000, 2010⟩, ⟨3000, 3000, 3005⟩] :
            List TickInput).map TickInput.nowUs) = true)
    ∧ (runTicks 1000 10 (initializedState 10)
        [⟨1000, 1000, 1020⟩, ⟨2000, 2000, 2010⟩, ⟨3000, 3000, 3005⟩]).2
      = (List.range 3).map fun j => j % 10 :=
  ⟨⟨by decide, by decide, by decide⟩,
    round_robin_order 1000 10 (by decide) (by decide)
      [⟨1000, 1000, 1020⟩, ⟨2000, 2000, 2010⟩, ⟨3000, 3000, 3005⟩] (by decide)⟩

/-! ### Initialization behaviour (claims C7 and C8) -/

/-- Counterexample to claim C7, at the spec's Scenario B input: a
measurement/dispatch table of length 8 together with task count 10.
In the embedding `none` is where main_f_Init_v would signal a fatal
startup halt; the source function (main.cpp lines 112-136) contains no
validation and no failure path, so even on this mismatched
configuration it returns `some` and startup proceeds to ticking. -/
theorem init_no_validation_counterexample :
    (main_f_Init_v 10
      { main_g_CurrMicros_u64 := 0
        main_g_LastMicros_u64 := 0
        main_g_CurrTaskIndex_u16 := 0
        main_g_RuntimeMeas_s := List.replicate 8 zeroMeas }).isSome = true := by
  decide

/-- Claim C7, amended: main_f_Init_v performs no registry-length
validation and cannot fail or halt startup: for every task count and
every prior state it succeeds.  The dispatch table of the source is a
fixed compile-time switch with exactly MAIN_CYCLE_TASK_COUNT cases, so
a runtime length mismatch is not even representable. -/
theorem init_never_fails (taskCount : Nat) (s : MainState) :
    (main_f_Init_v taskCount s).isSome = true := rfl

/-- Counterexample to claim C8, at the concrete boot clock reading
12345 us: after main_f_Init_v the last-fire timestamp is the static
initial value 0 (main.cpp line 38) and not the clock reading, because
main_f_Init_v never reads the clock. -/
theorem init_lastMicros_counterexample :
    (initializedState main_c_CycleTaskCount_u8).main_g_LastMicros_u64 = 0
    ∧ ¬ (initializedState main_c_CycleTaskCount_u8).main_g_LastMicros_u64 = 12345 := by
  decide

/-- Claim C8, amended: after boot followed by main_f_Init_v every
measurement record has currentCycle_u32 = minCycle_u32 = maxCycle_u32
= 0, main_g_CurrTaskIndex_u16 = 0 (from static initialization; the init
function does not set it), and main_g_LastMicros_u64 = 0, the static
initial value — not an initial clock reading, which initialization
never takes. -/
theorem init_state_zeroed :
    (∀ r ∈ (initializedState main_c_CycleTaskCount_u8).main_g_RuntimeMeas_s,
      r.currentCycle_u32 = 0 ∧ r.minCycle_u32 = 0 ∧ r.maxCycle_u32 = 0)
    ∧ (initializedState main_c_CycleTaskCount_u8).main_g_CurrTaskIndex_u16 = 0
    ∧ (initializedState main_c_CycleTaskCount_u8).main_g_LastMicros_u64 = 0 := by
  decide

end ProstheticHand
